import Mathlib

/-!
Verification development for the mit-service inbox task-queue engine.

The definitions below are a shallow embedding of the Go sources:
* `internal/models/models.go` — the task / record data model;
* `internal/repository/factory.go` (MockRepository) — the in-memory store
  backing records and inbox tasks (Go maps are modelled as lists of
  entries with unique ids; map iteration order is the list order,
  which in Go is unspecified);
* `internal/repository/postgres.go` — the SQL queries are modelled as
  pure functions over the table contents;
* `internal/service/inbox_worker.go` — task processing, retry handling
  and the cleanup sweep;
* the service producer layer (`Service.Insert` / `Update` / `Delete` /
  `GetTasks`) — payload serialization (`json.Marshal`) is kept abstract
  as an `Option Payload` argument, task ids (`uuid.New`) and wall-clock
  times are explicit arguments.

Timestamps are integers (seconds); durations likewise, with one hour
equal to 3600.  Record values and serialized payload values are strings:
the Go code only ever compares their `json.Marshal` images byte for
byte, which is string equality here.  Errors are the exact strings the
Go code builds (the worker's idempotency check compares an error
message against such a string, so the strings matter).
-/

namespace MitService

/-- Task status constants from `models.go`. -/
def taskStatusPending : String := "pending"

/-- Task status `processing`. -/
def taskStatusProcessing : String := "processing"

/-- Task status `completed`. -/
def taskStatusCompleted : String := "completed"

/-- Task status `failed`. -/
def taskStatusFailed : String := "failed"

/-- Task operation `insert`. -/
def taskOperationInsert : String := "insert"

/-- Task operation `update`. -/
def taskOperationUpdate : String := "update"

/-- Task operation `delete`. -/
def taskOperationDelete : String := "delete"

/-- `models.ErrInvalidTaskOperation`. -/
def errInvalidTaskOperation : String := "invalid task operation"

/-- `models.Record`: the value field is its serialized (JSON) form, compared
byte for byte. -/
structure Record where
  id : String
  value : String
deriving DecidableEq, Repr

/-- A decoded task payload.  In Go the payload is raw JSON unmarshalled per
operation (`InsertTaskPayload` etc.); here it is kept decoded, with
`malformed` standing for bytes that fail to unmarshal. -/
inductive Payload where
  | insertP (id : String) (value : String)
  | updateP (id : String) (value : String)
  | deleteP (id : String)
  | malformed (raw : String)
deriving DecidableEq, Repr

/-- `models.InboxTask`. -/
structure InboxTask where
  id : String
  operation : String
  payload : Payload
  status : String
  createdAt : Int
  updatedAt : Int
  retries : Nat
  error : String
deriving DecidableEq, Repr

/-- `models.TaskStats`. -/
structure TaskStats where
  totalTasks : Nat
  pendingTasks : Nat
  processingTasks : Nat
  completedTasks : Nat
  failedTasks : Nat
deriving DecidableEq, Repr

/-- The MockRepository state: the `records` map and the `inboxTasks` map,
each as a list of entries with unique ids. -/
structure SState where
  records : List Record
  tasks : List InboxTask
deriving DecidableEq, Repr

/-! ### MockRepository record operations (factory.go) -/

/-- `MockRepository.Insert`: error if the id is already present, else store. -/
def recordInsert (recs : List Record) (r : Record) : Except String (List Record) :=
  if recs.any (fun x => x.id = r.id) then
    .error ("record with id '" ++ r.id ++ "' already exists")
  else
    .ok (recs ++ [r])

/-- `MockRepository.Update`: error if absent, else replace the stored value. -/
def recordUpdate (recs : List Record) (r : Record) : Except String (List Record) :=
  if recs.any (fun x => x.id = r.id) then
    .ok (recs.map fun x => if x.id = r.id then r else x)
  else
    .error ("record with id '" ++ r.id ++ "' not found")

/-- `MockRepository.Delete`: error if absent, else remove. -/
def recordDelete (recs : List Record) (id : String) : Except String (List Record) :=
  if recs.any (fun x => x.id = id) then
    .ok (recs.filter fun x => x.id ≠ id)
  else
    .error ("record with id '" ++ id ++ "' not found")

/-- `MockRepository.Get`: the stored record, or a not-found error. -/
def recordGet (recs : List Record) (id : String) : Except String Record :=
  match recs.find? (fun x => x.id = id) with
  | some r => .ok r
  | none => .error ("record with id '" ++ id ++ "' not found")

/-! ### MockRepository inbox operations (factory.go) -/

/-- `MockRepository.CreateTask`: stores a copy of the task; never fails. -/
def createTask (tasks : List InboxTask) (task : InboxTask) : Except String (List InboxTask) :=
  .ok (tasks ++ [task])

/-- The loop body of `MockRepository.GetPendingTasks`: iterate the task map,
collecting tasks whose status is `pending` while `count < limit`.  The
iteration continues past the limit but appends nothing more. -/
def getPendingAux (limit : Nat) : List InboxTask → Nat → List InboxTask
  | [], _ => []
  | t :: ts, count =>
    if t.status = taskStatusPending ∧ count < limit then
      t :: getPendingAux limit ts (count + 1)
    else
      getPendingAux limit ts count

/-- `MockRepository.GetPendingTasks`: a read-only scan (under `RLock`) of the
task map; it returns copies of up to `limit` pending tasks and writes
nothing — no status change happens as part of the fetch. -/
def mockGetPendingTasks (tasks : List InboxTask) (limit : Nat) : List InboxTask :=
  getPendingAux limit tasks 0

/-- `GetPendingTasks` as a repository call: the pair of its result and the
post-call store state.  The Go method only reads (it takes `tasksMu.RLock`
and performs no write), so the post-call state is the input state. -/
def mockGetPendingTasksOp (st : SState) (limit : Nat) : List InboxTask × SState :=
  (mockGetPendingTasks st.tasks limit, st)

/-- `MockRepository.UpdateTaskStatus`: error if the task id is absent, else
set status and error message and refresh `updatedAt`. -/
def updateTaskStatus (tasks : List InboxTask) (taskID status errorMsg : String)
    (now : Int) : Except String (List InboxTask) :=
  if tasks.any (fun t => t.id = taskID) then
    .ok (tasks.map fun t =>
      if t.id = taskID then
        { t with status := status, updatedAt := now, error := errorMsg }
      else t)
  else
    .error ("task with id '" ++ taskID ++ "' not found")

/-- `MockRepository.IncrementTaskRetries`: error if absent, else `retries+1`
and refresh `updatedAt`. -/
def incrementTaskRetries (tasks : List InboxTask) (taskID : String)
    (now : Int) : Except String (List InboxTask) :=
  if tasks.any (fun t => t.id = taskID) then
    .ok (tasks.map fun t =>
      if t.id = taskID then
        { t with retries := t.retries + 1, updatedAt := now }
      else t)
  else
    .error ("task with id '" ++ taskID ++ "' not found")

/-- One hour, in the time unit of the embedding (seconds). -/
def hourSeconds : Int := 3600

/-- `MockRepository.DeleteCompletedTasks`: iterate the task map and delete
every task whose status is `completed` or `failed` and whose `updatedAt` is
before `now - olderThanHours` hours. -/
def deleteCompletedTasks (nowT : Int) (olderThanHours : Int) :
    List InboxTask → List InboxTask
  | [] => []
  | t :: ts =>
    if (t.status = taskStatusCompleted ∨ t.status = taskStatusFailed) ∧
        t.updatedAt < nowT - olderThanHours * hourSeconds then
      deleteCompletedTasks nowT olderThanHours ts
    else
      t :: deleteCompletedTasks nowT olderThanHours ts

/-- `MockRepository.GetTaskStats`: counts per status. -/
def getTaskStats (tasks : List InboxTask) : TaskStats :=
  { totalTasks := tasks.length
    pendingTasks := (tasks.filter fun t => t.status = taskStatusPending).length
    processingTasks := (tasks.filter fun t => t.status = taskStatusProcessing).length
    completedTasks := (tasks.filter fun t => t.status = taskStatusCompleted).length
    failedTasks := (tasks.filter fun t => t.status = taskStatusFailed).length }

/-- Insert a task into a list sorted by `createdAt` descending (newest
first), modelling the listing sort of `GetTasksByStatus` / `GetAllTasks`. -/
def insertByCreatedDesc (t : InboxTask) : List InboxTask → List InboxTask
  | [] => [t]
  | u :: us =>
    if u.createdAt ≤ t.createdAt then t :: u :: us
    else u :: insertByCreatedDesc t us

/-- Sort by `createdAt` descending (newest first). -/
def sortByCreatedDesc : List InboxTask → List InboxTask
  | [] => []
  | t :: ts => insertByCreatedDesc t (sortByCreatedDesc ts)

/-- The pagination slice of `GetTasksByStatus` / `GetAllTasks`:
`start >= len` gives the empty list, else the slice `[start : start+limit]`
clipped to the list length. -/
def paginate (l : List InboxTask) (limit offset : Int) : List InboxTask :=
  if (l.length : Int) ≤ offset then []
  else (l.drop offset.toNat).take limit.toNat

/-- `MockRepository.GetTasksByStatus`: filter by status, sort newest first,
paginate. -/
def mockGetTasksByStatus (tasks : List InboxTask) (status : String)
    (limit offset : Int) : List InboxTask :=
  paginate (sortByCreatedDesc (tasks.filter fun t => t.status = status)) limit offset

/-- `MockRepository.GetAllTasks`: sort newest first, paginate. -/
def mockGetAllTasks (tasks : List InboxTask) (limit offset : Int) : List InboxTask :=
  paginate (sortByCreatedDesc tasks) limit offset

/-! ### PostgresRepository (postgres.go), queries as pure functions -/

/-- Ordered insert by `createdAt` ascending, for the model of the SQL
`ORDER BY created_at ASC`. -/
def insertByCreatedAsc (t : InboxTask) : List InboxTask → List InboxTask
  | [] => [t]
  | u :: us =>
    if t.createdAt ≤ u.createdAt then t :: u :: us
    else u :: insertByCreatedAsc t us

/-- Sort by `createdAt` ascending (oldest first). -/
def sortByCreatedAsc : List InboxTask → List InboxTask
  | [] => []
  | t :: ts => insertByCreatedAsc t (sortByCreatedAsc ts)

/-- `PostgresRepository.GetPendingTasks`: the query
`SELECT ... WHERE status = 'pending' ORDER BY created_at ASC LIMIT n`.
A plain `SELECT`: it performs no `UPDATE` and takes no row locks, so the
table is unchanged by the call. -/
def pgGetPendingTasks (table : List InboxTask) (limit : Nat) : List InboxTask :=
  (sortByCreatedAsc (table.filter fun t => t.status = taskStatusPending)).take limit

/-! ### InboxWorker (inbox_worker.go) -/

/-- `InboxWorker.processInsertTask`: decode the payload, attempt the record
insert; on the exact duplicate-key error message, fetch the existing record
and compare serialized values byte for byte — equal is an idempotent
success, unequal is the distinct conflicting-value error.  Returns the
process error (if any) and the record store afterwards. -/
def processInsertTask (recs : List Record) (payload : Payload) :
    Option String × List Record :=
  match payload with
  | .insertP pid pval =>
    match recordInsert recs { id := pid, value := pval } with
    | .ok recs2 => (none, recs2)
    | .error e =>
      if e = "record with id '" ++ pid ++ "' already exists" then
        match recordGet recs pid with
        | .error ge => (some ("failed to verify existing record: " ++ ge), recs)
        | .ok existing =>
          if existing.value = pval then
            (none, recs)
          else
            (some ("record with id '" ++ pid ++ "' already exists but with different value"), recs)
      else
        (some ("failed to insert record: " ++ e), recs)
  | _ => (some "failed to unmarshal insert payload", recs)

/-- `InboxWorker.processUpdateTask`. -/
def processUpdateTask (recs : List Record) (payload : Payload) :
    Option String × List Record :=
  match payload with
  | .updateP pid pval =>
    match recordUpdate recs { id := pid, value := pval } with
    | .ok recs2 => (none, recs2)
    | .error e => (some ("failed to update record: " ++ e), recs)
  | _ => (some "failed to unmarshal update payload", recs)

/-- `InboxWorker.processDeleteTask`. -/
def processDeleteTask (recs : List Record) (payload : Payload) :
    Option String × List Record :=
  match payload with
  | .deleteP pid =>
    match recordDelete recs pid with
    | .ok recs2 => (none, recs2)
    | .error e => (some ("failed to delete record: " ++ e), recs)
  | _ => (some "failed to unmarshal delete payload", recs)

/-- The operation dispatch of `InboxWorker.processTask` (the `switch` on
`task.Operation`): unrecognized operations yield
`models.ErrInvalidTaskOperation`. -/
def applyOutcome (recs : List Record) (operation : String) (payload : Payload) :
    Option String × List Record :=
  if operation = taskOperationInsert then processInsertTask recs payload
  else if operation = taskOperationUpdate then processUpdateTask recs payload
  else if operation = taskOperationDelete then processDeleteTask recs payload
  else (some errInvalidTaskOperation, recs)

/-- The worker's treatment of a store call whose error is only logged: on
success use the new store state, on error keep the previous one. -/
def orKeep : Except String (List InboxTask) → List InboxTask → List InboxTask
  | .ok ts, _ => ts
  | .error _, fallback => fallback

/-- `InboxWorker.handleTaskError`: increment the retry counter (a store
error there is only logged, leaving the store unchanged), then compare the
FETCHED task's `Retries` field — the pre-increment value — against
`maxRetries`: at or above it, mark the task `failed` with the error
message; below it, the detached retry timer later (after `retryDelay`)
marks it `pending` with the error message.  The delayed write is modelled
as part of the transition, timestamped `now + retryDelay`. -/
def handleTaskError (maxRetries : Nat) (task : InboxTask) (errMsg : String)
    (now retryDelay : Int) (tasks : List InboxTask) : List InboxTask :=
  let tasks1 := orKeep (incrementTaskRetries tasks task.id now) tasks
  if task.retries ≥ maxRetries then
    orKeep (updateTaskStatus tasks1 task.id taskStatusFailed errMsg now) tasks1
  else
    orKeep (updateTaskStatus tasks1 task.id taskStatusPending errMsg (now + retryDelay)) tasks1

/-- `InboxWorker.processTask`: dispatch by operation; on failure run
`handleTaskError`, on success mark the task `completed` with an empty error
(an update failure there is only logged). -/
def processTask (maxRetries : Nat) (retryDelay now : Int) (task : InboxTask)
    (st : SState) : SState :=
  let out := applyOutcome st.records task.operation task.payload
  match out.1 with
  | some msg =>
    { records := out.2
      tasks := handleTaskError maxRetries task msg now retryDelay st.tasks }
  | none =>
    { records := out.2
      tasks := orKeep (updateTaskStatus st.tasks task.id taskStatusCompleted "" now) st.tasks }

/-- Iterated poll ticks with batch size 1: each tick fetches pending tasks
from the mock store and processes the first fetched task, as the worker
loop does; a tick with nothing pending does nothing. -/
def runPoll (maxRetries : Nat) (retryDelay now : Int) : Nat → SState → SState
  | 0, st => st
  | k + 1, st =>
    match mockGetPendingTasks st.tasks 1 with
    | [] => st
    | t :: _ => runPoll maxRetries retryDelay now k (processTask maxRetries retryDelay now t st)

/-- `InboxWorker.cleanupOldTasks`: one sweep; the stats reads around the
delete do not change the store; the retention argument is the constant 24
hours. -/
def cleanupOldTasks (nowT : Int) (tasks : List InboxTask) : List InboxTask :=
  deleteCompletedTasks nowT 24 tasks

/-! ### Service producer and listing (service.go) -/

/-- `Service.Insert`: marshal the payload (abstract: `none` is a marshal
failure), build a `pending` task with zero retries, persist it via the
inbox store only.  `newId` is the generated uuid, `now` the wall clock. -/
def serviceInsert (marshalled : Option Payload) (newId : String) (now : Int)
    (st : SState) : Except String SState :=
  match marshalled with
  | none => .error "failed to marshal insert payload"
  | some payload =>
    match createTask st.tasks
        { id := newId, operation := taskOperationInsert, payload := payload,
          status := taskStatusPending, createdAt := now, updatedAt := now,
          retries := 0, error := "" } with
    | .error e => .error ("failed to create insert task: " ++ e)
    | .ok ts => .ok { st with tasks := ts }

/-- `Service.Update`: as `serviceInsert` with the `update` operation. -/
def serviceUpdate (marshalled : Option Payload) (newId : String) (now : Int)
    (st : SState) : Except String SState :=
  match marshalled with
  | none => .error "failed to marshal update payload"
  | some payload =>
    match createTask st.tasks
        { id := newId, operation := taskOperationUpdate, payload := payload,
          status := taskStatusPending, createdAt := now, updatedAt := now,
          retries := 0, error := "" } with
    | .error e => .error ("failed to create update task: " ++ e)
    | .ok ts => .ok { st with tasks := ts }

/-- `Service.Delete`: as `serviceInsert` with the `delete` operation. -/
def serviceDelete (marshalled : Option Payload) (newId : String) (now : Int)
    (st : SState) : Except String SState :=
  match marshalled with
  | none => .error "failed to marshal delete payload"
  | some payload =>
    match createTask st.tasks
        { id := newId, operation := taskOperationDelete, payload := payload,
          status := taskStatusPending, createdAt := now, updatedAt := now,
          retries := 0, error := "" } with
    | .error e => .error ("failed to create delete task: " ++ e)
    | .ok ts => .ok { st with tasks := ts }

/-- `models.TasksListResponse`. -/
structure TasksListResponse where
  tasks : List InboxTask
  total : Nat
  limit : Int
  offset : Int
  stats : TaskStats
deriving DecidableEq, Repr

/-- `Service.GetTasks`: clamp `limit` (nonpositive becomes 50, above 100
becomes 100) and `offset` (negative becomes 0), list via `GetAllTasks` or
`GetTasksByStatus`, and echo the clamped values in the response. -/
def serviceGetTasks (status : String) (limit offset : Int) (st : SState) :
    TasksListResponse :=
  let limit1 := if limit ≤ 0 then 50 else limit
  let limit2 := if limit1 > 100 then 100 else limit1
  let offset1 := if offset < 0 then 0 else offset
  let tasks :=
    if status = "" then mockGetAllTasks st.tasks limit2 offset1
    else mockGetTasksByStatus st.tasks status limit2 offset1
  { tasks := tasks, total := tasks.length, limit := limit2, offset := offset1,
    stats := getTaskStats st.tasks }

/-! ### Metrics health scoring (metrics.go) -/

/-- The fields of `MetricsSnapshot` that `GetHealthStatus` reads.  The Go
float64 fields are modelled as rationals. -/
structure MetricsSnapshot where
  totalRequests : Int
  failedRequests : Int
  avgResponseTime : Rat
  queueDepth : Int
  memoryUsageMB : Rat
  goroutineCount : Int
deriving DecidableEq, Repr

/-- `metrics.HealthStatus`. -/
structure HealthStatus where
  status : String
  score : Int
  issues : List String
  recommendations : List String
deriving DecidableEq, Repr

/-- Response-time block of `GetHealthStatus`: critical above 500ms deducts
40, else warning above 100ms deducts 20 (warning does not overwrite an
earlier critical status). -/
def checkResponseTime (s : MetricsSnapshot) (h : HealthStatus) : HealthStatus :=
  if s.avgResponseTime > 500 then
    { h with
      status := "critical"
      score := h.score - 40
      issues := h.issues ++ ["Very high response time (>500ms)"]
      recommendations := h.recommendations ++
        ["Consider scaling up the service or optimizing database queries"] }
  else if s.avgResponseTime > 100 then
    { h with
      status := if h.status ≠ "critical" then "warning" else h.status
      score := h.score - 20
      issues := h.issues ++ ["High response time (>100ms)"]
      recommendations := h.recommendations ++
        ["Monitor database performance and consider caching"] }
  else h

/-- Queue-depth block: critical above 500 deducts 30, else warning above 100
deducts 15. -/
def checkQueueDepth (s : MetricsSnapshot) (h : HealthStatus) : HealthStatus :=
  if s.queueDepth > 500 then
    { h with
      status := "critical"
      score := h.score - 30
      issues := h.issues ++ ["Very high queue depth (>500)"]
      recommendations := h.recommendations ++
        ["Increase inbox worker count or check for processing bottlenecks"] }
  else if s.queueDepth > 100 then
    { h with
      status := if h.status ≠ "critical" then "warning" else h.status
      score := h.score - 15
      issues := h.issues ++ ["High queue depth (>100)"]
      recommendations := h.recommendations ++ ["Monitor task processing speed"] }
  else h

/-- The error rate of the snapshot, in percent (0 when no requests). -/
def errorRate (s : MetricsSnapshot) : Rat :=
  (s.failedRequests : Rat) / (s.totalRequests : Rat) * 100

/-- Error-rate block: only evaluated when `totalRequests > 0`; critical
above 5 percent deducts 35, else warning above 1 percent deducts 10. -/
def checkErrorRate (s : MetricsSnapshot) (h : HealthStatus) : HealthStatus :=
  if s.totalRequests > 0 then
    if errorRate s > 5 then
      { h with
        status := "critical"
        score := h.score - 35
        issues := h.issues ++ ["High error rate (>5%)"]
        recommendations := h.recommendations ++
          ["Investigate application errors and system issues"] }
    else if errorRate s > 1 then
      { h with
        status := if h.status ≠ "critical" then "warning" else h.status
        score := h.score - 10
        issues := h.issues ++ ["Elevated error rate (>1%)"]
        recommendations := h.recommendations ++ ["Monitor error logs for patterns"] }
    else h
  else h

/-- Memory block: critical above 1024 MB deducts 25, else warning above 512
MB deducts 10. -/
def checkMemoryUsage (s : MetricsSnapshot) (h : HealthStatus) : HealthStatus :=
  if s.memoryUsageMB > 1024 then
    { h with
      status := "critical"
      score := h.score - 25
      issues := h.issues ++ ["Very high memory usage (>1GB)"]
      recommendations := h.recommendations ++
        ["Check for memory leaks and consider scaling"] }
  else if s.memoryUsageMB > 512 then
    { h with
      status := if h.status ≠ "critical" then "warning" else h.status
      score := h.score - 10
      issues := h.issues ++ ["High memory usage (>512MB)"]
      recommendations := h.recommendations ++ ["Monitor memory usage trends"] }
  else h

/-- Goroutine block: critical above 5000 deducts 20, else warning above 1000
deducts 10. -/
def checkGoroutineCount (s : MetricsSnapshot) (h : HealthStatus) : HealthStatus :=
  if s.goroutineCount > 5000 then
    { h with
      status := "critical"
      score := h.score - 20
      issues := h.issues ++ ["Very high goroutine count (>5000)"]
      recommendations := h.recommendations ++ ["Check for goroutine leaks"] }
  else if s.goroutineCount > 1000 then
    { h with
      status := if h.status ≠ "critical" then "warning" else h.status
      score := h.score - 10
      issues := h.issues ++ ["High goroutine count (>1000)"]
      recommendations := h.recommendations ++ ["Monitor goroutine usage"] }
  else h

/-- `MetricsSnapshot.GetHealthStatus`: start from status `healthy`, score
100, and run the five threshold blocks in the order of the source. -/
def getHealthStatus (s : MetricsSnapshot) : HealthStatus :=
  checkGoroutineCount s (checkMemoryUsage s (checkErrorRate s
    (checkQueueDepth s (checkResponseTime s
      { status := "healthy", score := 100, issues := [], recommendations := [] }))))

/-! ### Helper lemmas -/

/-- Pagination returns at most `limit.toNat` tasks. -/
lemma paginate_length_le (l : List InboxTask) (limit offset : Int) :
    (paginate l limit offset).length ≤ limit.toNat := by
  unfold paginate
  split_ifs
  · simp
  · rw [List.length_take]
    exact Nat.min_le_left _ _

/-! ### C4 — producer path -/

/-- C4: each producer operation fails exactly when payload serialization
fails, and otherwise appends a single `pending` task with zero retries and
the respective operation to the inbox store, leaving the record store
untouched (the equations exhibit the full resulting state). -/
theorem C4_producer_pending_only_inbox :
    ∀ (p : Payload) (newId : String) (now : Int) (st : SState),
      serviceInsert none newId now st = .error "failed to marshal insert payload" ∧
      serviceInsert (some p) newId now st = .ok
        { records := st.records
          tasks := st.tasks ++
            [⟨newId, taskOperationInsert, p, taskStatusPending, now, now, 0, ""⟩] } ∧
      serviceUpdate none newId now st = .error "failed to marshal update payload" ∧
      serviceUpdate (some p) newId now st = .ok
        { records := st.records
          tasks := st.tasks ++
            [⟨newId, taskOperationUpdate, p, taskStatusPending, now, now, 0, ""⟩] } ∧
      serviceDelete none newId now st = .error "failed to marshal delete payload" ∧
      serviceDelete (some p) newId now st = .ok
        { records := st.records
          tasks := st.tasks ++
            [⟨newId, taskOperationDelete, p, taskStatusPending, now, now, 0, ""⟩] } :=
  fun _ _ _ _ => ⟨rfl, rfl, rfl, rfl, rfl, rfl⟩

/-! ### C10 — GetTasks pagination clamping -/

/-- C10: `GetTasks` clamps a nonpositive limit to 50, a limit above 100 to
100 and a negative offset to 0, echoes the clamped values in the response,
and returns at most the clamped limit many tasks. -/
theorem C10_getTasks_clamps :
    ∀ (status : String) (limit offset : Int) (st : SState),
      (serviceGetTasks status limit offset st).limit =
        (if limit ≤ 0 then 50 else if limit > 100 then 100 else limit) ∧
      (serviceGetTasks status limit offset st).offset =
        (if offset < 0 then 0 else offset) ∧
      (serviceGetTasks status limit offset st).tasks.length ≤
        (if limit ≤ 0 then 50 else if limit > 100 then 100 else limit).toNat := by
  intro status limit offset st
  have hlim : (if (if limit ≤ 0 then (50 : Int) else limit) > 100 then (100 : Int)
      else if limit ≤ 0 then 50 else limit) =
      (if limit ≤ 0 then 50 else if limit > 100 then 100 else limit) := by
    split_ifs <;> omega
  refine ⟨?_, ?_, ?_⟩
  · simp only [serviceGetTasks]
    exact hlim
  · simp only [serviceGetTasks]
  · simp only [serviceGetTasks]
    rw [hlim]
    by_cases hs : status = ""
    · rw [if_pos hs]
      exact paginate_length_le _ _ _
    · rw [if_neg hs]
      exact paginate_length_le _ _ _

/-! ### C6 — cleanup sweep retention -/

/-- C6: a task survives a cleanup sweep at time `nowT` exactly when it was
in the store and is not a terminal (`completed` or `failed`) task whose
`updatedAt` is older than the 24-hour retention window; every terminal task
older than the window is deleted, everything else is retained. -/
theorem C6_cleanup_retention :
    ∀ (nowT : Int) (tasks : List InboxTask) (t : InboxTask),
      t ∈ cleanupOldTasks nowT tasks ↔
        t ∈ tasks ∧ ¬((t.status = taskStatusCompleted ∨ t.status = taskStatusFailed) ∧
          t.updatedAt < nowT - 24 * hourSeconds) := by
  intro nowT tasks t
  unfold cleanupOldTasks
  induction tasks with
  | nil => simp [deleteCompletedTasks]
  | cons u ts ih =>
    simp only [deleteCompletedTasks]
    split_ifs with hc
    · rw [ih]
      constructor
      · rintro ⟨h1, h2⟩
        exact ⟨List.mem_cons_of_mem _ h1, h2⟩
      · rintro ⟨h1, h2⟩
        rcases List.mem_cons.mp h1 with h | h
        · subst h
          exact absurd hc h2
        · exact ⟨h, h2⟩
    · constructor
      · intro hmem
        rcases List.mem_cons.mp hmem with h | h
        · subst h
          exact ⟨List.mem_cons_self _ _, hc⟩
        · rcases ih.mp h with ⟨h1, h2⟩
          exact ⟨List.mem_cons_of_mem _ h1, h2⟩
      · rintro ⟨h1, h2⟩
        rcases List.mem_cons.mp h1 with h | h
        · subst h
          exact List.mem_cons_self _ _
        · exact List.mem_cons_of_mem _ (ih.mpr ⟨h, h2⟩)

/-! ### C3 — idempotent insert conflict handling -/

/-- C3: when the record store already holds a record under the inserted id
(so `Insert` reports the duplicate-key error), the worker fetches the
existing record and compares serialized values byte for byte: equal values
make the apply an idempotent success, different values yield the distinct
conflicting-value error; the record store is unchanged either way. -/
theorem C3_duplicate_insert_idempotency
    (recs : List Record) (pid pval : String) (r : Record)
    (hfind : recs.find? (fun x => x.id = pid) = some r) :
    processInsertTask recs (.insertP pid pval) =
      if r.value = pval then (none, recs)
      else (some ("record with id '" ++ pid ++ "' already exists but with different value"), recs) := by
  have hr : r.id = pid := by simpa using List.find?_some hfind
  have hmem : r ∈ recs := List.mem_of_find?_eq_some hfind
  have hany : recs.any (fun x => x.id = pid) = true := by
    simp only [List.any_eq_true, decide_eq_true_eq]
    exact ⟨r, hmem, hr⟩
  simp [processInsertTask, recordInsert, recordGet, hany, hfind]

/-- Witness for C3 at a concrete store: re-inserting the already-stored
value succeeds as a no-op. -/
theorem C3_duplicate_insert_idempotency_witness :
    processInsertTask [{ id := "a", value := "1" }] (.insertP "a" "1") =
      (none, [{ id := "a", value := "1" }]) := by
  have h := C3_duplicate_insert_idempotency [{ id := "a", value := "1" }] "a" "1"
    { id := "a", value := "1" } (by decide)
  simpa using h

/-! ### Sortedness of the modelled SQL ordering -/

/-- Membership through ordered insert. -/
lemma mem_insertByCreatedAsc {x t : InboxTask} {l : List InboxTask} :
    x ∈ insertByCreatedAsc t l ↔ x = t ∨ x ∈ l := by
  induction l with
  | nil => simp [insertByCreatedAsc]
  | cons u us ih =>
    simp only [insertByCreatedAsc]
    split_ifs
    · simp [List.mem_cons]
    · simp only [List.mem_cons, ih]
      tauto

/-- Ordered insert preserves sortedness by `createdAt`. -/
lemma sorted_insertByCreatedAsc {t : InboxTask} {l : List InboxTask}
    (hs : List.Sorted (fun a b : InboxTask => a.createdAt ≤ b.createdAt) l) :
    List.Sorted (fun a b : InboxTask => a.createdAt ≤ b.createdAt)
      (insertByCreatedAsc t l) := by
  induction l with
  | nil => simp [insertByCreatedAsc]
  | cons u us ih =>
    rw [List.sorted_cons] at hs
    simp only [insertByCreatedAsc]
    split_ifs with h
    · rw [List.sorted_cons]
      refine ⟨?_, ?_⟩
      · intro b hb
        rcases List.mem_cons.mp hb with rfl | hb
        · exact h
        · exact le_trans h (hs.1 b hb)
      · rw [List.sorted_cons]
        exact hs
    · rw [List.sorted_cons]
      refine ⟨?_, ih hs.2⟩
      intro b hb
      rcases mem_insertByCreatedAsc.mp hb with rfl | hb
      · omega
      · exact hs.1 b hb

/-- The model of `ORDER BY created_at ASC` is sorted. -/
lemma sorted_sortByCreatedAsc (l : List InboxTask) :
    List.Sorted (fun a b : InboxTask => a.createdAt ≤ b.createdAt)
      (sortByCreatedAsc l) := by
  induction l with
  | nil => simp [sortByCreatedAsc]
  | cons t ts ih => exact sorted_insertByCreatedAsc ih

/-- Sorting by `createdAt` does not change membership. -/
lemma mem_sortByCreatedAsc {x : InboxTask} {l : List InboxTask} :
    x ∈ sortByCreatedAsc l ↔ x ∈ l := by
  induction l with
  | nil => simp [sortByCreatedAsc]
  | cons t ts ih =>
    simp only [sortByCreatedAsc, mem_insertByCreatedAsc, List.mem_cons, ih]

/-! ### Mock pending fetch lemmas -/

/-- The fetch loop collects at most `limit - count` further tasks. -/
lemma getPendingAux_length (limit : Nat) (l : List InboxTask) :
    ∀ c, (getPendingAux limit l c).length ≤ limit - c := by
  induction l with
  | nil => intro c; simp [getPendingAux]
  | cons t ts ih =>
    intro c
    simp only [getPendingAux]
    split_ifs with h
    · have := ih (c + 1)
      simp only [List.length_cons]
      omega
    · exact ih c

/-- Every task the fetch loop collects has status `pending`. -/
lemma getPendingAux_status (limit : Nat) (l : List InboxTask) :
    ∀ c x, x ∈ getPendingAux limit l c → x.status = taskStatusPending := by
  induction l with
  | nil => intro c x hx; simp [getPendingAux] at hx
  | cons t ts ih =>
    intro c x hx
    simp only [getPendingAux] at hx
    split_ifs at hx with h
    · rcases List.mem_cons.mp hx with rfl | hx
      · exact h.1
      · exact ih (c + 1) x hx
    · exact ih c x hx

/-! ### C1 — claim-on-fetch atomicity (code bug evidence) -/

/-- A concrete pending task for the fetch scenarios. -/
def c1Task : InboxTask :=
  ⟨"t1", taskOperationInsert, .insertP "r1" "v1", taskStatusPending, 0, 0, 0, ""⟩

/-- C1 evidence: the fetch is a plain read.  With a single pending task in
the store, a fetch returns the task, leaves the store state exactly as it
was with the task still `pending`, and a second fetch (a racing poller)
returns the very same task again; the modelled Postgres `SELECT` likewise
returns it without any state change.  The claimed atomic
pending-to-processing transition does not happen. -/
theorem C1_fetch_does_not_claim :
    (mockGetPendingTasksOp ⟨[], [c1Task]⟩ 10).1 = [c1Task] ∧
    (mockGetPendingTasksOp ⟨[], [c1Task]⟩ 10).2 = ⟨[], [c1Task]⟩ ∧
    (mockGetPendingTasksOp (mockGetPendingTasksOp ⟨[], [c1Task]⟩ 10).2 10).1 = [c1Task] ∧
    ((mockGetPendingTasksOp ⟨[], [c1Task]⟩ 10).2).tasks.map (fun t => t.status) =
      [taskStatusPending] ∧
    pgGetPendingTasks [c1Task] 10 = [c1Task] := by
  refine ⟨?_, rfl, ?_, ?_, ?_⟩ <;> decide

/-! ### C7 — pending fetch: bound, status filter, ordering -/

/-- C7 (amended): for every store state and limit, both pending fetches
return at most `limit` tasks and only tasks whose status is `pending`; the
Postgres fetch additionally returns them ordered by `createdAt` ascending.
(The mock fetch returns map-iteration order — see the counterexample.) -/
theorem C7_pending_fetch_contract :
    ∀ (table store : List InboxTask) (limit : Nat),
      (pgGetPendingTasks table limit).length ≤ limit ∧
      (∀ t ∈ pgGetPendingTasks table limit, t.status = taskStatusPending) ∧
      List.Sorted (fun a b : InboxTask => a.createdAt ≤ b.createdAt)
        (pgGetPendingTasks table limit) ∧
      (mockGetPendingTasks store limit).length ≤ limit ∧
      (∀ t ∈ mockGetPendingTasks store limit, t.status = taskStatusPending) := by
  intro table store limit
  refine ⟨?_, ?_, ?_, ?_, ?_⟩
  · exact List.length_take_le _ _
  · intro t ht
    have hmem : t ∈ sortByCreatedAsc (table.filter fun t => t.status = taskStatusPending) :=
      List.take_subset _ _ ht
    have : t ∈ table.filter fun t => t.status = taskStatusPending :=
      mem_sortByCreatedAsc.mp hmem
    simpa using (List.mem_filter.mp this).2
  · exact (sorted_sortByCreatedAsc _).sublist (List.take_sublist _ _)
  · have := getPendingAux_length limit store 0
    simpa [mockGetPendingTasks] using this
  · intro t ht
    exact getPendingAux_status limit store 0 t ht

/-- Witness for C7: the contract applied to a concrete two-task store. -/
theorem C7_pending_fetch_contract_witness :
    c1Task.status = taskStatusPending := by
  have h := (C7_pending_fetch_contract [c1Task] [c1Task] 10).2.1
  exact h c1Task (by decide)

/-- A newer pending task (map iteration can yield it first). -/
def cexTaskNew : InboxTask :=
  ⟨"t-new", taskOperationInsert, .insertP "r2" "v2", taskStatusPending, 2, 2, 0, ""⟩

/-- An older pending task. -/
def cexTaskOld : InboxTask :=
  ⟨"t-old", taskOperationInsert, .insertP "r3" "v3", taskStatusPending, 1, 1, 0, ""⟩

/-- C7 counterexample: with the newer task ahead of the older one in map
iteration order, the mock fetch returns them newest first, so the fetch
result is NOT ordered by `createdAt` ascending as the claim states. -/
theorem C7_mock_fetch_unordered_counterexample :
    ¬ List.Sorted (fun a b : InboxTask => a.createdAt ≤ b.createdAt)
      (mockGetPendingTasks [cexTaskNew, cexTaskOld] 10) := by
  have h : mockGetPendingTasks [cexTaskNew, cexTaskOld] 10 = [cexTaskNew, cexTaskOld] := by
    decide
  intro hs
  rw [h, List.sorted_cons] at hs
  have h2 := hs.1 cexTaskOld (by simp)
  norm_num [cexTaskNew, cexTaskOld] at h2

/-! ### Retry accounting: singleton-store computations -/

/-- `UpdateTaskStatus` on a singleton store with a matching id. -/
lemma updateTaskStatus_single (u : InboxTask) (tid stt em : String) (now : Int)
    (h : u.id = tid) :
    updateTaskStatus [u] tid stt em now =
      .ok [{ u with status := stt, updatedAt := now, error := em }] := by
  simp [updateTaskStatus, h]

/-- `IncrementTaskRetries` on a singleton store with a matching id. -/
lemma incrementTaskRetries_single (u : InboxTask) (tid : String) (now : Int)
    (h : u.id = tid) :
    incrementTaskRetries [u] tid now =
      .ok [{ u with retries := u.retries + 1, updatedAt := now }] := by
  simp [incrementTaskRetries, h]

/-- `handleTaskError` on a singleton store: the retry counter is
incremented, and the branch is decided by the FETCHED task's pre-increment
`retries` value against `maxRetries`. -/
lemma handleTaskError_single (mr : Nat) (task u : InboxTask) (e : String)
    (now rd : Int) (h : u.id = task.id) :
    handleTaskError mr task e now rd [u] =
      if task.retries ≥ mr then
        [{ u with
            retries := u.retries + 1
            updatedAt := now
            status := taskStatusFailed
            error := e }]
      else
        [{ u with
            retries := u.retries + 1
            updatedAt := now + rd
            status := taskStatusPending
            error := e }] := by
  simp only [handleTaskError]
  rw [incrementTaskRetries_single u task.id now h]
  simp only [orKeep]
  split_ifs with hge
  · rw [updateTaskStatus_single { u with retries := u.retries + 1, updatedAt := now }
      task.id taskStatusFailed e now h]
  · rw [updateTaskStatus_single { u with retries := u.retries + 1, updatedAt := now }
      task.id taskStatusPending e (now + rd) h]

/-- A singleton fetch with batch size 1 returns the task when it is pending. -/
lemma mockGetPendingTasks_singleton_pending (t : InboxTask)
    (h : t.status = taskStatusPending) : mockGetPendingTasks [t] 1 = [t] := by
  simp [mockGetPendingTasks, getPendingAux, h]

/-- A singleton fetch returns nothing when the task is not pending. -/
lemma mockGetPendingTasks_singleton_not_pending (t : InboxTask)
    (h : t.status ≠ taskStatusPending) : mockGetPendingTasks [t] 1 = [] := by
  simp [mockGetPendingTasks, getPendingAux, h]

/-- Poll ticks do nothing once the single task is no longer pending. -/
lemma runPoll_stuck (mr : Nat) (rd now : Int) (recs : List Record)
    (t : InboxTask) (h : t.status ≠ taskStatusPending) :
    ∀ k, runPoll mr rd now k ⟨recs, [t]⟩ = ⟨recs, [t]⟩ := by
  intro k
  induction k with
  | zero => rfl
  | succ k ih =>
    simp only [runPoll]
    rw [mockGetPendingTasks_singleton_not_pending t h]

/-- A task whose apply always fails (without touching the record store) is
driven by successive poll ticks through `maxRetries + 1 - retries` failed
attempts and ends `failed` with `maxRetries + 1` recorded retries. -/
lemma runPoll_exhaust (mr : Nat) (rd now : Int) (recs : List Record) (msg : String) :
    ∀ (fuel r : Nat) (t : InboxTask),
      t.status = taskStatusPending → t.retries = r →
      applyOutcome recs t.operation t.payload = (some msg, recs) →
      r ≤ mr → mr + 1 - r ≤ fuel →
      ∃ u : InboxTask,
        runPoll mr rd now fuel ⟨recs, [t]⟩ = ⟨recs, [u]⟩ ∧
        u.status = taskStatusFailed ∧ u.retries = mr + 1 := by
  intro fuel
  induction fuel with
  | zero =>
    intro r t _ _ _ h4 h5
    omega
  | succ f ih =>
    intro r t hpend hret happ hle _
    have hstep : runPoll mr rd now (f + 1) ⟨recs, [t]⟩ =
        runPoll mr rd now f (processTask mr rd now t ⟨recs, [t]⟩) := by
      simp only [runPoll]
      rw [mockGetPendingTasks_singleton_pending t hpend]
    have hproc : processTask mr rd now t ⟨recs, [t]⟩ =
        ⟨recs, handleTaskError mr t msg now rd [t]⟩ := by
      simp only [processTask]
      rw [happ]
    rw [hstep, hproc, handleTaskError_single mr t t msg now rd rfl]
    by_cases hge : t.retries ≥ mr
    · rw [if_pos hge]
      rw [runPoll_stuck mr rd now recs _ (by simp [taskStatusFailed, taskStatusPending]) f]
      refine ⟨_, rfl, by simp, ?_⟩
      simp only [hret] at hge ⊢
      omega
    · rw [if_neg hge]
      refine ih (r + 1) _ (by simp) (by simp [hret]) (by simpa using happ) ?_ ?_
      · omega
      · simp only [hret] at hge
        omega

/-! ### C2 — retry accounting (amended: pre-increment comparison) -/

/-- C2 (amended): on a failed apply `handleTaskError` durably increments
the retry counter, but branches on the FETCHED task's pre-increment
`retries` value: at or above `maxRetries` the task becomes terminal
`failed` with the error persisted, otherwise after `retryDelay` it returns
to `pending` with the error persisted; consequently a task whose apply
always fails ends `failed` with `retries = maxRetries + 1` (not
`maxRetries`). -/
theorem C2_retry_accounting :
    ∀ (mr : Nat) (now rd cAt : Int) (e tid rid v : String) (t : InboxTask),
      handleTaskError mr t e now rd [t] =
        (if t.retries ≥ mr then
          [{ t with
              retries := t.retries + 1
              updatedAt := now
              status := taskStatusFailed
              error := e }]
        else
          [{ t with
              retries := t.retries + 1
              updatedAt := now + rd
              status := taskStatusPending
              error := e }]) ∧
      (∃ u : InboxTask,
        runPoll mr rd now (mr + 1)
          ⟨[], [⟨tid, taskOperationUpdate, .updateP rid v, taskStatusPending, cAt, cAt, 0, ""⟩]⟩ =
          ⟨[], [u]⟩ ∧
        u.status = taskStatusFailed ∧ u.retries = mr + 1) := by
  intro mr now rd cAt e tid rid v t
  refine ⟨handleTaskError_single mr t t e now rd rfl, ?_⟩
  refine runPoll_exhaust mr rd now []
    ("failed to update record: " ++ ("record with id '" ++ rid ++ "' not found"))
    (mr + 1) 0 _ rfl rfl ?_ (by omega) (by omega)
  simp [applyOutcome, taskOperationInsert, taskOperationUpdate, taskOperationDelete,
    processUpdateTask, recordUpdate]

/-- A task with zero retries for the C2 counterexample. -/
def c2Task : InboxTask :=
  ⟨"c2", taskOperationUpdate, .updateP "x" "v", taskStatusPending, 0, 0, 0, ""⟩

/-- C2 counterexample: with `maxRetries = 1` and a task whose `retries` is
0, the post-increment retry count 1 is at `maxRetries`, so the claim says
the task transitions to `failed` — but the code reschedules it to
`pending`; driving the always-failing task to exhaustion ends with
`retries = 2`, not `retries = maxRetries = 1`. -/
theorem C2_counterexample :
    (0 + 1 ≥ 1) ∧
    (handleTaskError 1 c2Task "boom" 0 5 [c2Task]).map (fun t => t.status) =
      [taskStatusPending] ∧
    (runPoll 1 5 0 2 ⟨[], [c2Task]⟩).tasks.map (fun t => t.status) = [taskStatusFailed] ∧
    (runPoll 1 5 0 2 ⟨[], [c2Task]⟩).tasks.map (fun t => t.retries) = [2] := by
  decide

/-! ### C8 — invalid operation handling -/

/-- C8: a task whose operation is none of insert/update/delete fails
immediately with the fixed `invalid task operation` error, goes through the
same `handleTaskError` retry accounting as any other failure, and (as the
only task of a store) is eventually terminal `failed` after retry
exhaustion. -/
theorem C8_invalid_operation :
    ∀ (mr : Nat) (rd now : Int) (task : InboxTask) (st : SState),
      task.operation ≠ taskOperationInsert →
      task.operation ≠ taskOperationUpdate →
      task.operation ≠ taskOperationDelete →
      applyOutcome st.records task.operation task.payload =
        (some errInvalidTaskOperation, st.records) ∧
      processTask mr rd now task st =
        { records := st.records
          tasks := handleTaskError mr task errInvalidTaskOperation now rd st.tasks } ∧
      (task.status = taskStatusPending → task.retries = 0 →
        ∃ u : InboxTask,
          runPoll mr rd now (mr + 1) ⟨st.records, [task]⟩ = ⟨st.records, [u]⟩ ∧
          u.status = taskStatusFailed ∧ u.retries = mr + 1) := by
  intro mr rd now task st h1 h2 h3
  have happ : applyOutcome st.records task.operation task.payload =
      (some errInvalidTaskOperation, st.records) := by
    simp [applyOutcome, h1, h2, h3]
  refine ⟨happ, ?_, ?_⟩
  · simp only [processTask]
    rw [happ]
  · intro hp hr
    exact runPoll_exhaust mr rd now st.records errInvalidTaskOperation (mr + 1) 0 task
      hp hr happ (by omega) (by omega)

/-- A task with an unrecognized operation. -/
def c8Task : InboxTask :=
  ⟨"t8", "noop", .deleteP "x", taskStatusPending, 0, 0, 0, ""⟩

/-- Witness for C8: a concrete `noop` task with `maxRetries = 2` ends
`failed` with 3 recorded retries. -/
theorem C8_invalid_operation_witness :
    ∃ u : InboxTask, runPoll 2 5 0 3 ⟨[], [c8Task]⟩ = ⟨[], [u]⟩ ∧
      u.status = taskStatusFailed ∧ u.retries = 3 := by
  have h := C8_invalid_operation 2 5 0 c8Task ⟨[], [c8Task]⟩
    (by decide) (by decide) (by decide)
  exact h.2.2 (by decide) (by decide)

/-! ### Health scoring: spec-side thresholds (modelled from the table in
spec section 4.5) and the characterization of `GetHealthStatus` -/

/-- The escalation rank of a status string. -/
def rankOfStatus (s : String) : Nat :=
  if s = "critical" then 2 else if s = "warning" then 1 else 0

/-- The status string of an escalation level. -/
def statusOfLevel : Nat → String
  | 0 => "healthy"
  | 1 => "warning"
  | _ => "critical"

/-- Spec: response-time axis level (warning above 100 ms, critical above
500 ms). -/
def specResponseLevel (s : MetricsSnapshot) : Nat :=
  if s.avgResponseTime > 500 then 2 else if s.avgResponseTime > 100 then 1 else 0

/-- Spec: response-time deduction (20 warning, 40 critical; only the larger
breached tier fires). -/
def specResponseDeduction (s : MetricsSnapshot) : Int :=
  if s.avgResponseTime > 500 then 40 else if s.avgResponseTime > 100 then 20 else 0

/-- Spec: queue-depth axis level (warning above 100, critical above 500). -/
def specQueueLevel (s : MetricsSnapshot) : Nat :=
  if s.queueDepth > 500 then 2 else if s.queueDepth > 100 then 1 else 0

/-- Spec: queue-depth deduction (15 warning, 30 critical). -/
def specQueueDeduction (s : MetricsSnapshot) : Int :=
  if s.queueDepth > 500 then 30 else if s.queueDepth > 100 then 15 else 0

/-- Spec: error-rate axis level (warning above 1 percent, critical above 5
percent; the rate only exists when there are requests). -/
def specErrorLevel (s : MetricsSnapshot) : Nat :=
  if s.totalRequests > 0 ∧ errorRate s > 5 then 2
  else if s.totalRequests > 0 ∧ errorRate s > 1 then 1 else 0

/-- Spec: error-rate deduction (10 warning, 35 critical). -/
def specErrorDeduction (s : MetricsSnapshot) : Int :=
  if s.totalRequests > 0 ∧ errorRate s > 5 then 35
  else if s.totalRequests > 0 ∧ errorRate s > 1 then 10 else 0

/-- Spec: memory axis level (warning above 512 MB, critical above 1024 MB). -/
def specMemoryLevel (s : MetricsSnapshot) : Nat :=
  if s.memoryUsageMB > 1024 then 2 else if s.memoryUsageMB > 512 then 1 else 0

/-- Spec: memory deduction (10 warning, 25 critical). -/
def specMemoryDeduction (s : MetricsSnapshot) : Int :=
  if s.memoryUsageMB > 1024 then 25 else if s.memoryUsageMB > 512 then 10 else 0

/-- Spec: goroutine axis level (warning above 1000, critical above 5000). -/
def specGoroutineLevel (s : MetricsSnapshot) : Nat :=
  if s.goroutineCount > 5000 then 2 else if s.goroutineCount > 1000 then 1 else 0

/-- Spec: goroutine deduction (10 warning, 20 critical). -/
def specGoroutineDeduction (s : MetricsSnapshot) : Int :=
  if s.goroutineCount > 5000 then 20 else if s.goroutineCount > 1000 then 10 else 0

/-- Spec: the overall escalation level is the worst breached axis level. -/
def specHealthLevel (s : MetricsSnapshot) : Nat :=
  ((((specResponseLevel s).max (specQueueLevel s)).max (specErrorLevel s)).max
    (specMemoryLevel s)).max (specGoroutineLevel s)

/-- Spec: the score is 100 minus all axis deductions, with no floor. -/
def specHealthScore (s : MetricsSnapshot) : Int :=
  100 - (specResponseDeduction s + specQueueDeduction s + specErrorDeduction s +
    specMemoryDeduction s + specGoroutineDeduction s)

/-- Axis levels never exceed 2. -/
lemma specResponseLevel_le_two (s : MetricsSnapshot) : specResponseLevel s ≤ 2 := by
  unfold specResponseLevel
  split_ifs <;> omega

/-- Queue level bound. -/
lemma specQueueLevel_le_two (s : MetricsSnapshot) : specQueueLevel s ≤ 2 := by
  unfold specQueueLevel
  split_ifs <;> omega

/-- Error level bound. -/
lemma specErrorLevel_le_two (s : MetricsSnapshot) : specErrorLevel s ≤ 2 := by
  unfold specErrorLevel
  split_ifs <;> omega

/-- Memory level bound. -/
lemma specMemoryLevel_le_two (s : MetricsSnapshot) : specMemoryLevel s ≤ 2 := by
  unfold specMemoryLevel
  split_ifs <;> omega

/-- Goroutine level bound. -/
lemma specGoroutineLevel_le_two (s : MetricsSnapshot) : specGoroutineLevel s ≤ 2 := by
  unfold specGoroutineLevel
  split_ifs <;> omega

/-- Step characterization: the response-time block deducts its spec deduction and
escalates the status to the maximum of the previous level and its spec
level. -/
lemma checkResponseTime_spec (s : MetricsSnapshot) (h : HealthStatus) (r : Nat)
    (hst : h.status = statusOfLevel r) (hr : r ≤ 2) :
    (checkResponseTime s h).status = statusOfLevel (r.max (specResponseLevel s)) ∧
    (checkResponseTime s h).score = h.score - specResponseDeduction s := by
  by_cases hc : s.avgResponseTime > 500
  · have hm : r.max 2 = 2 := Nat.max_eq_right hr
    constructor
    · simp [checkResponseTime, specResponseLevel, hc, hm, statusOfLevel]
    · simp [checkResponseTime, specResponseDeduction, hc]
  · by_cases hw : s.avgResponseTime > 100
    · constructor
      · simp only [checkResponseTime, specResponseLevel, if_neg hc, if_pos hw]
        interval_cases r <;> simp_all [statusOfLevel, Nat.max_def]
      · simp [checkResponseTime, specResponseDeduction, hc, hw]
    · have hm : r.max 0 = r := Nat.max_eq_left (Nat.zero_le r)
      constructor
      · simp only [checkResponseTime, specResponseLevel, if_neg hc, if_neg hw, hm]
        exact hst
      · simp [checkResponseTime, specResponseDeduction, hc, hw]

/-- Step characterization: the queue-depth block deducts its spec deduction and
escalates the status to the maximum of the previous level and its spec
level. -/
lemma checkQueueDepth_spec (s : MetricsSnapshot) (h : HealthStatus) (r : Nat)
    (hst : h.status = statusOfLevel r) (hr : r ≤ 2) :
    (checkQueueDepth s h).status = statusOfLevel (r.max (specQueueLevel s)) ∧
    (checkQueueDepth s h).score = h.score - specQueueDeduction s := by
  by_cases hc : s.queueDepth > 500
  · have hm : r.max 2 = 2 := Nat.max_eq_right hr
    constructor
    · simp [checkQueueDepth, specQueueLevel, hc, hm, statusOfLevel]
    · simp [checkQueueDepth, specQueueDeduction, hc]
  · by_cases hw : s.queueDepth > 100
    · constructor
      · simp only [checkQueueDepth, specQueueLevel, if_neg hc, if_pos hw]
        interval_cases r <;> simp_all [statusOfLevel, Nat.max_def]
      · simp [checkQueueDepth, specQueueDeduction, hc, hw]
    · have hm : r.max 0 = r := Nat.max_eq_left (Nat.zero_le r)
      constructor
      · simp only [checkQueueDepth, specQueueLevel, if_neg hc, if_neg hw, hm]
        exact hst
      · simp [checkQueueDepth, specQueueDeduction, hc, hw]

/-- Step characterization for the error-rate block (guarded by the
presence of requests). -/
lemma checkErrorRate_spec (s : MetricsSnapshot) (h : HealthStatus) (r : Nat)
    (hst : h.status = statusOfLevel r) (hr : r ≤ 2) :
    (checkErrorRate s h).status = statusOfLevel (r.max (specErrorLevel s)) ∧
    (checkErrorRate s h).score = h.score - specErrorDeduction s := by
  by_cases h0 : s.totalRequests > 0
  · by_cases hc : errorRate s > 5
    · have hm : r.max 2 = 2 := Nat.max_eq_right hr
      constructor
      · simp [checkErrorRate, specErrorLevel, h0, hc, hm, statusOfLevel]
      · simp [checkErrorRate, specErrorDeduction, h0, hc]
    · by_cases hw : errorRate s > 1
      · constructor
        · simp only [checkErrorRate, specErrorLevel, if_pos h0, if_neg hc, if_pos hw,
            if_neg (fun hx : s.totalRequests > 0 ∧ errorRate s > 5 => hc hx.2),
            if_pos (And.intro h0 hw)]
          interval_cases r <;> simp_all [statusOfLevel, Nat.max_def]
        · simp [checkErrorRate, specErrorDeduction, h0, hc, hw]
      · have hm : r.max 0 = r := Nat.max_eq_left (Nat.zero_le r)
        constructor
        · simp only [checkErrorRate, specErrorLevel, if_pos h0, if_neg hc, if_neg hw,
            if_neg (fun hx : s.totalRequests > 0 ∧ errorRate s > 5 => hc hx.2),
            if_neg (fun hx : s.totalRequests > 0 ∧ errorRate s > 1 => hw hx.2), hm]
          exact hst
        · simp [checkErrorRate, specErrorDeduction, h0, hc, hw]
  · have hm : r.max 0 = r := Nat.max_eq_left (Nat.zero_le r)
    constructor
    · simp only [checkErrorRate, specErrorLevel, if_neg h0,
        if_neg (fun hx : s.totalRequests > 0 ∧ errorRate s > 5 => h0 hx.1),
        if_neg (fun hx : s.totalRequests > 0 ∧ errorRate s > 1 => h0 hx.1), hm]
      exact hst
    · simp [checkErrorRate, specErrorDeduction, h0]

/-- Step characterization: the memory block deducts its spec deduction and
escalates the status to the maximum of the previous level and its spec
level. -/
lemma checkMemoryUsage_spec (s : MetricsSnapshot) (h : HealthStatus) (r : Nat)
    (hst : h.status = statusOfLevel r) (hr : r ≤ 2) :
    (checkMemoryUsage s h).status = statusOfLevel (r.max (specMemoryLevel s)) ∧
    (checkMemoryUsage s h).score = h.score - specMemoryDeduction s := by
  by_cases hc : s.memoryUsageMB > 1024
  · have hm : r.max 2 = 2 := Nat.max_eq_right hr
    constructor
    · simp [checkMemoryUsage, specMemoryLevel, hc, hm, statusOfLevel]
    · simp [checkMemoryUsage, specMemoryDeduction, hc]
  · by_cases hw : s.memoryUsageMB > 512
    · constructor
      · simp only [checkMemoryUsage, specMemoryLevel, if_neg hc, if_pos hw]
        interval_cases r <;> simp_all [statusOfLevel, Nat.max_def]
      · simp [checkMemoryUsage, specMemoryDeduction, hc, hw]
    · have hm : r.max 0 = r := Nat.max_eq_left (Nat.zero_le r)
      constructor
      · simp only [checkMemoryUsage, specMemoryLevel, if_neg hc, if_neg hw, hm]
        exact hst
      · simp [checkMemoryUsage, specMemoryDeduction, hc, hw]

/-- Step characterization: the goroutine block deducts its spec deduction and
escalates the status to the maximum of the previous level and its spec
level. -/
lemma checkGoroutineCount_spec (s : MetricsSnapshot) (h : HealthStatus) (r : Nat)
    (hst : h.status = statusOfLevel r) (hr : r ≤ 2) :
    (checkGoroutineCount s h).status = statusOfLevel (r.max (specGoroutineLevel s)) ∧
    (checkGoroutineCount s h).score = h.score - specGoroutineDeduction s := by
  by_cases hc : s.goroutineCount > 5000
  · have hm : r.max 2 = 2 := Nat.max_eq_right hr
    constructor
    · simp [checkGoroutineCount, specGoroutineLevel, hc, hm, statusOfLevel]
    · simp [checkGoroutineCount, specGoroutineDeduction, hc]
  · by_cases hw : s.goroutineCount > 1000
    · constructor
      · simp only [checkGoroutineCount, specGoroutineLevel, if_neg hc, if_pos hw]
        interval_cases r <;> simp_all [statusOfLevel, Nat.max_def]
      · simp [checkGoroutineCount, specGoroutineDeduction, hc, hw]
    · have hm : r.max 0 = r := Nat.max_eq_left (Nat.zero_le r)
      constructor
      · simp only [checkGoroutineCount, specGoroutineLevel, if_neg hc, if_neg hw, hm]
        exact hst
      · simp [checkGoroutineCount, specGoroutineDeduction, hc, hw]

/-- The full characterization of `GetHealthStatus`: the status is the worst
breached axis level and the score is 100 minus the sum of the spec
deductions. -/
lemma getHealthStatus_spec (s : MetricsSnapshot) :
    (getHealthStatus s).status = statusOfLevel (specHealthLevel s) ∧
    (getHealthStatus s).score = specHealthScore s := by
  have l1 := specResponseLevel_le_two s
  have l2 := specQueueLevel_le_two s
  have l3 := specErrorLevel_le_two s
  have l4 := specMemoryLevel_le_two s
  have l5 := specGoroutineLevel_le_two s
  have m1 : Nat.max 0 (specResponseLevel s) ≤ 2 := Nat.max_le.mpr ⟨by omega, l1⟩
  have m2 : (Nat.max 0 (specResponseLevel s)).max (specQueueLevel s) ≤ 2 :=
    Nat.max_le.mpr ⟨m1, l2⟩
  have m3 : ((Nat.max 0 (specResponseLevel s)).max (specQueueLevel s)).max
      (specErrorLevel s) ≤ 2 := Nat.max_le.mpr ⟨m2, l3⟩
  have m4 : (((Nat.max 0 (specResponseLevel s)).max (specQueueLevel s)).max
      (specErrorLevel s)).max (specMemoryLevel s) ≤ 2 := Nat.max_le.mpr ⟨m3, l4⟩
  obtain ⟨a1, b1⟩ := checkResponseTime_spec s
    { status := "healthy", score := 100, issues := [], recommendations := [] } 0 rfl
    (by omega)
  obtain ⟨a2, b2⟩ := checkQueueDepth_spec s _ _ a1 m1
  obtain ⟨a3, b3⟩ := checkErrorRate_spec s _ _ a2 m2
  obtain ⟨a4, b4⟩ := checkMemoryUsage_spec s _ _ a3 m3
  obtain ⟨a5, b5⟩ := checkGoroutineCount_spec s _ _ a4 m4
  constructor
  · rw [getHealthStatus, a5]
    simp [specHealthLevel, Nat.zero_max]
  · have hinit : ({ status := "healthy", score := 100, issues := [], recommendations := [] } : HealthStatus).score = (100 : Int) := rfl
    rw [getHealthStatus, b5, b4, b3, b2, b1, hinit, specHealthScore]
    omega

/-- Status ranks are at most 2. -/
lemma rankOfStatus_le_two (st : String) : rankOfStatus st ≤ 2 := by
  unfold rankOfStatus
  split_ifs <;> omega

/-- Rank of `critical`. -/
lemma rank_critical : rankOfStatus "critical" = 2 := by simp [rankOfStatus]

/-- Rank of `warning`. -/
lemma rank_warning : rankOfStatus "warning" = 1 := by simp [rankOfStatus]

/-- Only level 0 renders as `healthy`. -/
lemma statusOfLevel_eq_healthy (n : Nat) : statusOfLevel n = "healthy" ↔ n = 0 := by
  match n with
  | 0 => simp [statusOfLevel]
  | 1 => simp [statusOfLevel]
  | n + 2 => simp [statusOfLevel]

/-- The response-time block never downgrades the status. -/
lemma checkResponseTime_escalates (s : MetricsSnapshot) (h : HealthStatus) :
    rankOfStatus h.status ≤ rankOfStatus (checkResponseTime s h).status := by
  unfold checkResponseTime
  split_ifs with h1 h2 h3
  · show rankOfStatus h.status ≤ rankOfStatus "critical"
    rw [rank_critical]
    exact rankOfStatus_le_two h.status
  · show rankOfStatus h.status ≤ rankOfStatus "warning"
    rw [rank_warning]
    unfold rankOfStatus
    split_ifs with hcrit
    · exact absurd hcrit h3
    · omega
    · omega
  · exact le_refl _
  · exact le_refl _

/-- The queue-depth block never downgrades the status. -/
lemma checkQueueDepth_escalates (s : MetricsSnapshot) (h : HealthStatus) :
    rankOfStatus h.status ≤ rankOfStatus (checkQueueDepth s h).status := by
  unfold checkQueueDepth
  split_ifs with h1 h2 h3
  · show rankOfStatus h.status ≤ rankOfStatus "critical"
    rw [rank_critical]
    exact rankOfStatus_le_two h.status
  · show rankOfStatus h.status ≤ rankOfStatus "warning"
    rw [rank_warning]
    unfold rankOfStatus
    split_ifs with hcrit
    · exact absurd hcrit h3
    · omega
    · omega
  · exact le_refl _
  · exact le_refl _

/-- The error-rate block never downgrades the status. -/
lemma checkErrorRate_escalates (s : MetricsSnapshot) (h : HealthStatus) :
    rankOfStatus h.status ≤ rankOfStatus (checkErrorRate s h).status := by
  unfold checkErrorRate
  split_ifs with h0 h1 h2 h3
  · show rankOfStatus h.status ≤ rankOfStatus "critical"
    rw [rank_critical]
    exact rankOfStatus_le_two h.status
  · show rankOfStatus h.status ≤ rankOfStatus "warning"
    rw [rank_warning]
    unfold rankOfStatus
    split_ifs with hcrit
    · exact absurd hcrit h3
    · omega
    · omega
  · exact le_refl _
  · exact le_refl _
  · exact le_refl _

/-- The memory block never downgrades the status. -/
lemma checkMemoryUsage_escalates (s : MetricsSnapshot) (h : HealthStatus) :
    rankOfStatus h.status ≤ rankOfStatus (checkMemoryUsage s h).status := by
  unfold checkMemoryUsage
  split_ifs with h1 h2 h3
  · show rankOfStatus h.status ≤ rankOfStatus "critical"
    rw [rank_critical]
    exact rankOfStatus_le_two h.status
  · show rankOfStatus h.status ≤ rankOfStatus "warning"
    rw [rank_warning]
    unfold rankOfStatus
    split_ifs with hcrit
    · exact absurd hcrit h3
    · omega
    · omega
  · exact le_refl _
  · exact le_refl _

/-- The goroutine block never downgrades the status. -/
lemma checkGoroutineCount_escalates (s : MetricsSnapshot) (h : HealthStatus) :
    rankOfStatus h.status ≤ rankOfStatus (checkGoroutineCount s h).status := by
  unfold checkGoroutineCount
  split_ifs with h1 h2 h3
  · show rankOfStatus h.status ≤ rankOfStatus "critical"
    rw [rank_critical]
    exact rankOfStatus_le_two h.status
  · show rankOfStatus h.status ≤ rankOfStatus "warning"
    rw [rank_warning]
    unfold rankOfStatus
    split_ifs with hcrit
    · exact absurd hcrit h3
    · omega
    · omega
  · exact le_refl _
  · exact le_refl _

/-- Bounds for the response-time deduction, and its vanishing exactly at level 0. -/
lemma specResponseDeduction_bounds (s : MetricsSnapshot) :
    0 ≤ specResponseDeduction s ∧ specResponseDeduction s ≤ 40 ∧
    (specResponseLevel s = 0 ↔ specResponseDeduction s = 0) := by
  unfold specResponseLevel specResponseDeduction
  split_ifs <;> norm_num

/-- Bounds for the queue-depth deduction, and its vanishing exactly at level 0. -/
lemma specQueueDeduction_bounds (s : MetricsSnapshot) :
    0 ≤ specQueueDeduction s ∧ specQueueDeduction s ≤ 30 ∧
    (specQueueLevel s = 0 ↔ specQueueDeduction s = 0) := by
  unfold specQueueLevel specQueueDeduction
  split_ifs <;> norm_num

/-- Bounds for the error-rate deduction, and its vanishing exactly at level 0. -/
lemma specErrorDeduction_bounds (s : MetricsSnapshot) :
    0 ≤ specErrorDeduction s ∧ specErrorDeduction s ≤ 35 ∧
    (specErrorLevel s = 0 ↔ specErrorDeduction s = 0) := by
  unfold specErrorLevel specErrorDeduction
  split_ifs <;> norm_num

/-- Bounds for the memory deduction, and its vanishing exactly at level 0. -/
lemma specMemoryDeduction_bounds (s : MetricsSnapshot) :
    0 ≤ specMemoryDeduction s ∧ specMemoryDeduction s ≤ 25 ∧
    (specMemoryLevel s = 0 ↔ specMemoryDeduction s = 0) := by
  unfold specMemoryLevel specMemoryDeduction
  split_ifs <;> norm_num

/-- Bounds for the goroutine deduction, and its vanishing exactly at level 0. -/
lemma specGoroutineDeduction_bounds (s : MetricsSnapshot) :
    0 ≤ specGoroutineDeduction s ∧ specGoroutineDeduction s ≤ 20 ∧
    (specGoroutineLevel s = 0 ↔ specGoroutineDeduction s = 0) := by
  unfold specGoroutineLevel specGoroutineDeduction
  split_ifs <;> norm_num

/-! ### C5 — health thresholds refine the spec table -/

/-- C5: `GetHealthStatus` starts from `healthy` / 100 and applies exactly
the spec table: the final score is 100 minus the per-axis deductions (only
the larger breached tier of an axis firing) and the final status renders
the worst breached axis level; every block only escalates the status,
never downgrades it. -/
theorem C5_health_thresholds :
    ∀ s : MetricsSnapshot,
      (getHealthStatus s).status = statusOfLevel (specHealthLevel s) ∧
      (getHealthStatus s).score = specHealthScore s ∧
      (∀ h : HealthStatus,
        rankOfStatus h.status ≤ rankOfStatus (checkResponseTime s h).status ∧
        rankOfStatus h.status ≤ rankOfStatus (checkQueueDepth s h).status ∧
        rankOfStatus h.status ≤ rankOfStatus (checkErrorRate s h).status ∧
        rankOfStatus h.status ≤ rankOfStatus (checkMemoryUsage s h).status ∧
        rankOfStatus h.status ≤ rankOfStatus (checkGoroutineCount s h).status) := by
  intro s
  obtain ⟨h1, h2⟩ := getHealthStatus_spec s
  exact ⟨h1, h2, fun h =>
    ⟨checkResponseTime_escalates s h, checkQueueDepth_escalates s h,
     checkErrorRate_escalates s h, checkMemoryUsage_escalates s h,
     checkGoroutineCount_escalates s h⟩⟩

/-! ### C9 — score range, no clamping, healthy iff 100 -/

/-- C9: the health score always lies between -50 and 100, some snapshot
produces a negative score (no clamping at zero), and the status is
`healthy` exactly when the score is 100. -/
theorem C9_health_score_unclamped :
    (∀ s : MetricsSnapshot,
      -50 ≤ (getHealthStatus s).score ∧ (getHealthStatus s).score ≤ 100 ∧
      ((getHealthStatus s).status = "healthy" ↔ (getHealthStatus s).score = 100)) ∧
    (∃ s : MetricsSnapshot, (getHealthStatus s).score < 0) := by
  constructor
  · intro s
    obtain ⟨hst, hsc⟩ := getHealthStatus_spec s
    obtain ⟨p1a, p1b, p1c⟩ := specResponseDeduction_bounds s
    obtain ⟨p2a, p2b, p2c⟩ := specQueueDeduction_bounds s
    obtain ⟨p3a, p3b, p3c⟩ := specErrorDeduction_bounds s
    obtain ⟨p4a, p4b, p4c⟩ := specMemoryDeduction_bounds s
    obtain ⟨p5a, p5b, p5c⟩ := specGoroutineDeduction_bounds s
    refine ⟨?_, ?_, ?_⟩
    · rw [hsc, specHealthScore]
      omega
    · rw [hsc, specHealthScore]
      omega
    · rw [hst, hsc, statusOfLevel_eq_healthy, specHealthScore, specHealthLevel]
      rw [Nat.max_eq_zero_iff, Nat.max_eq_zero_iff, Nat.max_eq_zero_iff,
        Nat.max_eq_zero_iff]
      constructor
      · rintro ⟨⟨⟨⟨e1, e2⟩, e3⟩, e4⟩, e5⟩
        have d1 := p1c.mp e1
        have d2 := p2c.mp e2
        have d3 := p3c.mp e3
        have d4 := p4c.mp e4
        have d5 := p5c.mp e5
        omega
      · intro hs
        have d1 : specResponseDeduction s = 0 := by omega
        have d2 : specQueueDeduction s = 0 := by omega
        have d3 : specErrorDeduction s = 0 := by omega
        have d4 : specMemoryDeduction s = 0 := by omega
        have d5 : specGoroutineDeduction s = 0 := by omega
        exact ⟨⟨⟨⟨p1c.mpr d1, p2c.mpr d2⟩, p3c.mpr d3⟩, p4c.mpr d4⟩, p5c.mpr d5⟩
  · refine ⟨⟨100, 100, 1000, 1000, 2048, 6000⟩, ?_⟩
    obtain ⟨_, hsc⟩ := getHealthStatus_spec ⟨100, 100, 1000, 1000, 2048, 6000⟩
    rw [hsc]
    norm_num [specHealthScore, specResponseDeduction, specQueueDeduction,
      specErrorDeduction, specMemoryDeduction, specGoroutineDeduction, errorRate]

end MitService
